import Mathlib

/-!
# Verification of the MOSIQA track library core

Shallow embedding of `TrackService` (src/src/app/core/services/track/track.service.ts)
and the keyed storage it orchestrates.  The `StorageService` consumed by
`TrackService` is not part of the sources; it is modelled from the spec's
storage contracts (§6), following the failure convention of the storage
wrapper that *is* in the sources (`Storage.saveFile` / `getFile` /
`deleteFile` catch every error and resolve to `false` / `null`, never
rejecting), which matches how `TrackService` consumes the results
(`if (!audioSaved) throwError`, `map((saved) => if (!saved) throw ...)`,
`deleteOperations: Observable<boolean>[]`).

Timestamps (`Date.now()` / `new Date()`) and the generated track id are passed
as explicit parameters; rxjs pipelines become state-passing functions on a
`Store` (persisted state) and a `Projection` (the in-memory reactive state).
`catchError` makes every pipeline total, so each operation returns its emitted
value (`Option Track` / `Bool`) together with the updated store and projection.
-/

namespace Mosiqa

/-- A binary payload (TS `File`).  `decoded` models the browser audio
decoder used by `getAudioDuration`: `some d` means metadata loads with
duration `d` seconds (`loadedmetadata` fires), `none` means the payload is
undecodable (`error` fires).  Modelled from the spec: the Duration Prober
contract `probe(bytes) -> seconds (>= 0)`, decoding failure yields 0. -/
structure FileData where
  name : String
  size : Nat
  mimeType : String
  decoded : Option Int
deriving DecidableEq, Repr

/-- `TrackRecord` from src/src/app/core/models/database.model.ts (persisted
track metadata).  Dates are epoch milliseconds. -/
structure TrackRecord where
  id : String
  title : String
  artist : String
  description : Option String
  category : String
  duration : Int
  audioFileId : String
  coverImageId : Option String
  createdAt : Nat
  updatedAt : Nat
deriving DecidableEq, Repr

/-- The hydrated `Track` view returned to consumers. -/
structure Track where
  id : String
  title : String
  artist : String
  description : Option String
  category : String
  duration : Int
  audioFileId : String
  coverImageId : Option String
  createdAt : Nat
  updatedAt : Nat
deriving DecidableEq, Repr

/-- `TrackService.mapRecordToTrack`: field-for-field hydration (the
`new Date(...)` wrappers preserve the timestamp value). -/
def mapRecordToTrack (r : TrackRecord) : Track :=
  { id := r.id
    title := r.title
    artist := r.artist
    description := r.description
    category := r.category
    duration := r.duration
    audioFileId := r.audioFileId
    coverImageId := r.coverImageId
    createdAt := r.createdAt
    updatedAt := r.updatedAt }

/-- `TrackFormData` (create form): title, artist, category, audio content,
optional description, optional cover content. -/
structure TrackFormData where
  title : String
  artist : String
  description : Option String
  category : String
  audioFile : FileData
  coverImage : Option FileData
deriving DecidableEq, Repr

/-- `Partial<Omit<TrackFormData, 'audioFile'>> & { audioFile?: File }`:
the update payload, every field optional. -/
structure TrackUpdates where
  title : Option String := none
  artist : Option String := none
  description : Option String := none
  category : Option String := none
  audioFile : Option FileData := none
  coverImage : Option FileData := none
deriving DecidableEq, Repr

/-- Modelled from the spec: persisted state of the two blob kinds and the
record store (§6: opaque asynchronous keyed get/put/delete stores). -/
structure Store where
  audioFiles : String → Option FileData
  coverImages : String → Option FileData
  tracks : String → Option TrackRecord

/-- Modelled from the spec: the environment deciding whether each keyed
`put`/`delete` succeeds (`ok|fail`).  Failures resolve to `false`, never
reject, following `Storage.saveFile`/`deleteFile` in the sources. -/
structure StorageEnv where
  audioSaveOk : String → Bool
  coverSaveOk : String → Bool
  trackSaveOk : String → Bool
  audioDeleteOk : String → Bool
  coverDeleteOk : String → Bool
  trackDeleteOk : String → Bool

/-- Modelled from the spec: `StorageService.saveAudioFile` — keyed put,
resolving `true` and storing the payload on success, `false` leaving the
store untouched on failure. -/
def saveAudioFile (env : StorageEnv) (id : String) (f : FileData) (s : Store) :
    Bool × Store :=
  if env.audioSaveOk id then
    (true, { s with audioFiles := fun k => if k = id then some f else s.audioFiles k })
  else (false, s)

/-- Modelled from the spec: `StorageService.saveCoverImage`. -/
def saveCoverImage (env : StorageEnv) (id : String) (f : FileData) (s : Store) :
    Bool × Store :=
  if env.coverSaveOk id then
    (true, { s with coverImages := fun k => if k = id then some f else s.coverImages k })
  else (false, s)

/-- Modelled from the spec: `StorageService.saveTrack` — record-store put. -/
def saveTrack (env : StorageEnv) (r : TrackRecord) (s : Store) : Bool × Store :=
  if env.trackSaveOk r.id then
    (true, { s with tracks := fun k => if k = r.id then some r else s.tracks k })
  else (false, s)

/-- Modelled from the spec: `StorageService.getTrack` — record-store get,
`record|absent`. -/
def getTrack (s : Store) (id : String) : Option TrackRecord :=
  s.tracks id

/-- Modelled from the spec: `StorageService.deleteAudioFile` — keyed delete,
`ok|fail`; failure leaves the store untouched. -/
def deleteAudioFile (env : StorageEnv) (id : String) (s : Store) : Bool × Store :=
  if env.audioDeleteOk id then
    (true, { s with audioFiles := fun k => if k = id then none else s.audioFiles k })
  else (false, s)

/-- Modelled from the spec: `StorageService.deleteCoverImage`. -/
def deleteCoverImage (env : StorageEnv) (id : String) (s : Store) : Bool × Store :=
  if env.coverDeleteOk id then
    (true, { s with coverImages := fun k => if k = id then none else s.coverImages k })
  else (false, s)

/-- Modelled from the spec: `StorageService.deleteTrack` — record-store
delete. -/
def deleteTrackRecord (env : StorageEnv) (id : String) (s : Store) : Bool × Store :=
  if env.trackDeleteOk id then
    (true, { s with tracks := fun k => if k = id then none else s.tracks k })
  else (false, s)

/-- `TrackOperationState`. -/
inductive OpState where
  | idle
  | loading
  | success
  | error
deriving DecidableEq, Repr

/-- The in-memory reactive state of `TrackService`: the `_tracks$` list
(mirrored into the `tracks` signal), the operation state, the last error
message and the selected-track cursor. -/
structure Projection where
  tracks : List Track
  state : OpState
  error : Option String
  selected : Option Track
deriving DecidableEq, Repr

/-- `TrackService.handleError`: records the error state and the message
(every error raised in the service is an `Error` with a message). -/
def handleError (p : Projection) (msg : String) : Projection :=
  { p with state := OpState.error, error := some msg }

/-- `TrackService.getAudioDuration`: resolves the decoded duration when
metadata loads, resolves 0 when decoding errors; never rejects. -/
def getAudioDuration (f : FileData) : Int :=
  match f.decoded with
  | some d => d
  | none => 0

/-- JS `String.prototype.trim` as used on the form fields: strips leading
and trailing whitespace.  Defined structurally on the character list so
that it evaluates by kernel reduction. -/
def jsTrim (s : String) : String :=
  ⟨((s.data.dropWhile Char.isWhitespace).reverse.dropWhile
      Char.isWhitespace).reverse⟩

/-- Result of one service operation: the value the returned observable
emits, plus the store and projection after the pipeline has run. -/
structure OpResult (ρ : Type) where
  value : ρ
  store : Store
  proj : Projection

/-- The sort in `loadTracks`:
`tracks.sort((a, b) => b.createdAt.getTime() - a.createdAt.getTime())`,
a stable sort placing `a` before `b` when `b.createdAt ≤ a.createdAt`
(descending by creation time). -/
def sortTracks (l : List Track) : List Track :=
  l.mergeSort (fun a b => decide (b.createdAt ≤ a.createdAt))

/-- `TrackService.loadTracks`, success path: maps the records returned by
`getAllTracks` (enumeration order unspecified, passed as input), sorts them
descending by `createdAt`, and replaces the projection's list. -/
def loadTracks (records : List TrackRecord) (p : Projection) : Projection :=
  let p0 := { p with state := OpState.loading }
  let tracks := records.map mapRecordToTrack
  let sorted := sortTracks tracks
  { p0 with tracks := sorted, state := OpState.success }

/-- `TrackService.createTrack`.  `tid` is the value of `generateId()` and
`now` the value of `new Date()` when the record is assembled. -/
def createTrack (env : StorageEnv) (tid : String) (now : Nat)
    (formData : TrackFormData) (s : Store) (p : Projection) :
    OpResult (Option Track) :=
  let p0 := { p with state := OpState.loading }
  let audioFileId := "audio-" ++ tid
  let audioSaved := (saveAudioFile env audioFileId formData.audioFile s).1
  let s1 := (saveAudioFile env audioFileId formData.audioFile s).2
  if audioSaved then
    let duration := getAudioDuration formData.audioFile
    let covRes : Option String × Store :=
      match formData.coverImage with
      | some cov =>
        let cid := "cover-" ++ tid
        (if (saveCoverImage env cid cov s1).1 then some cid else none,
          (saveCoverImage env cid cov s1).2)
      | none => (none, s1)
    let coverImageId := covRes.1
    let s2 := covRes.2
    let trackRecord : TrackRecord :=
      { id := tid
        title := jsTrim formData.title
        artist := jsTrim formData.artist
        description := formData.description.map jsTrim
        category := formData.category
        duration := duration
        audioFileId := audioFileId
        coverImageId := coverImageId
        createdAt := now
        updatedAt := now }
    let saved := (saveTrack env trackRecord s2).1
    let s3 := (saveTrack env trackRecord s2).2
    if saved then
      let track := mapRecordToTrack trackRecord
      ⟨some track, s3,
        { p0 with tracks := track :: p0.tracks, state := OpState.success }⟩
    else ⟨none, s3, handleError p0 "Failed to save track"⟩
  else ⟨none, s1, handleError p0 "Failed to save audio file"⟩

/-- The merged record assembled in `updateTrack`'s final `switchMap`:
`...existingRecord` with each supplied field trimmed/merged over the
existing value, the resolved blob ids and duration, and a fresh
`updatedAt` (`createdAt` and `id` are spread through unchanged). -/
def mergedRecord (ex : TrackRecord) (updates : TrackUpdates)
    (audioFileId : String) (duration : Int) (coverImageId : Option String)
    (tsU : Nat) : TrackRecord :=
  { ex with
    title := match updates.title with | some t => jsTrim t | none => ex.title
    artist := match updates.artist with | some a => jsTrim a | none => ex.artist
    description :=
      match updates.description with
      | some d => some (jsTrim d)
      | none => ex.description
    category := match updates.category with | some c => c | none => ex.category
    audioFileId := audioFileId
    coverImageId := coverImageId
    duration := duration
    updatedAt := tsU }

def finishUpdate (env : StorageEnv) (id : String) (ex : TrackRecord)
    (audioFileId : String) (duration : Int) (coverImageId : Option String)
    (tsU : Nat) (updates : TrackUpdates) (s : Store) (p0 : Projection) :
    OpResult (Option Track) :=
  let updatedRecord : TrackRecord :=
    mergedRecord ex updates audioFileId duration coverImageId tsU
  let saved := (saveTrack env updatedRecord s).1
  let s' := (saveTrack env updatedRecord s).2
  if saved then
    let track := mapRecordToTrack updatedRecord
    ⟨some track, s',
      { p0 with
        tracks := p0.tracks.map (fun t => if t.id = id then track else t)
        selected :=
          match p0.selected with
          | some sl => if sl.id = id then some track else some sl
          | none => none
        state := OpState.success }⟩
  else ⟨none, s', handleError p0 "Failed to update track"⟩

/-- `TrackService.updateTrack`.  `tsA`/`tsC` are the `Date.now()` values
qualifying the replacement audio/cover blob ids, `tsU` the `new Date()`
taken for `updatedAt`.  Fire-and-forget old-blob deletions
(`.subscribe()` inside `tap`) touch keys distinct from all later writes,
so threading them sequentially yields the same final store. -/
def updateTrack (env : StorageEnv) (id : String) (tsA tsC tsU : Nat)
    (updates : TrackUpdates) (s : Store) (p : Projection) :
    OpResult (Option Track) :=
  let p0 := { p with state := OpState.loading }
  match getTrack s id with
  | none => ⟨none, s, handleError p0 "Track not found"⟩
  | some ex =>
    match updates.audioFile with
    | some af =>
      let newAudioFileId := "audio-" ++ id ++ "-" ++ toString tsA
      let saved := (saveAudioFile env newAudioFileId af s).1
      let s1 := (saveAudioFile env newAudioFileId af s).2
      if saved then
        let duration := getAudioDuration af
        let s2 := (deleteAudioFile env ex.audioFileId s1).2
        match updates.coverImage with
        | some cov =>
          let newCoverImageId := "cover-" ++ id ++ "-" ++ toString tsC
          let imageSaved := (saveCoverImage env newCoverImageId cov s2).1
          let s3 := (saveCoverImage env newCoverImageId cov s2).2
          let s4 :=
            match ex.coverImageId with
            | some c => (deleteCoverImage env c s3).2
            | none => s3
          finishUpdate env id ex newAudioFileId duration
            (if imageSaved then some newCoverImageId else ex.coverImageId)
            tsU updates s4 p0
        | none =>
          finishUpdate env id ex newAudioFileId duration ex.coverImageId
            tsU updates s2 p0
      else ⟨none, s1, handleError p0 "Failed to save new audio file"⟩
    | none =>
      match updates.coverImage with
      | some cov =>
        let newCoverImageId := "cover-" ++ id ++ "-" ++ toString tsC
        let imageSaved := (saveCoverImage env newCoverImageId cov s).1
        let s1 := (saveCoverImage env newCoverImageId cov s).2
        let s2 :=
          match ex.coverImageId with
          | some c => (deleteCoverImage env c s1).2
          | none => s1
        finishUpdate env id ex ex.audioFileId ex.duration
          (if imageSaved then some newCoverImageId else ex.coverImageId)
          tsU updates s2 p0
      | none =>
        finishUpdate env id ex ex.audioFileId ex.duration ex.coverImageId
          tsU updates s p0

/-- `TrackService.deleteTrack`: loads the record, fans out the deletions
(audio blob, record, optional cover blob) via `forkJoin`, then
`map(() => true)` discards the collected boolean results; the `tap` applies
the filter-out projection edit and clears a matching selection. -/
def deleteTrack (env : StorageEnv) (id : String) (s : Store) (p : Projection) :
    OpResult Bool :=
  let p0 := { p with state := OpState.loading }
  match getTrack s id with
  | none => ⟨false, s, handleError p0 "Track not found"⟩
  | some track =>
    let s1 := (deleteAudioFile env track.audioFileId s).2
    let s2 := (deleteTrackRecord env id s1).2
    let s3 :=
      match track.coverImageId with
      | some cid => (deleteCoverImage env cid s2).2
      | none => s2
    ⟨true, s3,
      { p0 with
        tracks := p0.tracks.filter (fun t => t.id != id)
        selected :=
          match p0.selected with
          | some sl => if sl.id = id then none else some sl
          | none => none
        state := OpState.success }⟩

/-- `TrackService.selectTrack`: a pure local assignment of the cursor. -/
def selectTrack (p : Projection) (t : Option Track) : Projection :=
  { p with selected := t }

/-- `TrackService.clearError`. -/
def clearError (p : Projection) : Projection :=
  { p with error := none, state := OpState.idle }

/-! ### Concrete fixtures used by counterexamples and witnesses -/

/-- A decodable 3-second audio payload. -/
def fA : FileData := ⟨"a.mp3", 10, "audio/mpeg", some 3⟩

/-- An undecodable audio payload (`error` fires, probe yields 0). -/
def fBad : FileData := ⟨"bad.mp3", 5, "audio/mpeg", none⟩

/-- A cover image payload. -/
def fC : FileData := ⟨"c.png", 2, "image/png", none⟩

/-- Environment in which every storage operation succeeds. -/
def envAllOk : StorageEnv :=
  ⟨fun _ => true, fun _ => true, fun _ => true,
   fun _ => true, fun _ => true, fun _ => true⟩

/-- Environment in which audio-blob deletes fail and everything else
succeeds. -/
def envAudioDelFail : StorageEnv :=
  { envAllOk with audioDeleteOk := fun _ => false }

/-- Environment in which cover-image saves fail and everything else
succeeds. -/
def envCoverSaveFail : StorageEnv :=
  { envAllOk with coverSaveOk := fun _ => false }

/-- Environment in which record saves fail and everything else succeeds. -/
def envTrackSaveFail : StorageEnv :=
  { envAllOk with trackSaveOk := fun _ => false }

/-- Environment in which audio-blob saves fail. -/
def envAudioSaveFail : StorageEnv :=
  { envAllOk with audioSaveOk := fun _ => false }

/-- The empty store. -/
def emptyStore : Store := ⟨fun _ => none, fun _ => none, fun _ => none⟩

/-- The idle projection with no tracks. -/
def projIdle : Projection := ⟨[], OpState.idle, none, none⟩

/-- A persisted record as `createTrack` would write it for id `t1` with a
cover (ids `audio-t1` / `cover-t1`). -/
def recT1 : TrackRecord :=
  ⟨"t1", "Song", "Art", none, "Rock", 3, "audio-t1", some "cover-t1", 100, 100⟩

/-- The hydrated view of `recT1`. -/
def trkT1 : Track := mapRecordToTrack recT1

/-- A store holding exactly track `t1` with its two blobs. -/
def storeT1 : Store :=
  { audioFiles := fun k => if k = "audio-t1" then some fA else none
    coverImages := fun k => if k = "cover-t1" then some fC else none
    tracks := fun k => if k = "t1" then some recT1 else none }

/-- A create form with a cover image. -/
def form1 : TrackFormData := ⟨" Song ", "Art", none, "Rock", fA, some fC⟩

/-- A create form with an undecodable audio payload and no cover. -/
def formBad : TrackFormData := ⟨"B", "A", none, "Jazz", fBad, none⟩

/-- An update payload supplying only a new cover image. -/
def updCoverOnly : TrackUpdates := { coverImage := some fC }

/-- An update payload supplying only a new audio payload. -/
def updAudioOnly : TrackUpdates := { audioFile := some fA }

/-- The track emitted by `updateTrack envAllOk "t1" 200 201 202 updAudioOnly`
on `storeT1`: audio blob replaced under `audio-t1-200`, fresh `updatedAt`. -/
def trkT1upd : Track :=
  ⟨"t1", "Song", "Art", none, "Rock", 3, "audio-t1-200", some "cover-t1",
    100, 202⟩

/-- The track emitted by a successful cover-only update of `t1` with
`Date.now() = 201` for the blob id and `updatedAt = 202`. -/
def trkT1covUpd : Track :=
  ⟨"t1", "Song", "Art", none, "Rock", 3, "audio-t1", some "cover-t1-201",
    100, 202⟩

/-- The track emitted by `createTrack envAllOk "t2" 300 form1`. -/
def trkT2 : Track :=
  ⟨"t2", "Song", "Art", none, "Rock", 3, "audio-t2", some "cover-t2",
    300, 300⟩

/-- A projection whose list holds exactly `trkT1`. -/
def projT1 : Projection := ⟨[trkT1], OpState.success, none, none⟩

/-- A projection with `trkT1` listed and selected. -/
def projSelT1 : Projection := ⟨[trkT1], OpState.success, none, some trkT1⟩

/-- Strictly descending by creation time: the order the spec requires of
the projection's list when all creation timestamps are distinct. -/
def sortedByCreatedAtDesc (l : List Track) : Prop :=
  l.Pairwise (fun a b => b.createdAt < a.createdAt)

end Mosiqa

namespace Mosiqa

/-! ### Helper lemmas -/

theorem mapRecordToTrack_id (r : TrackRecord) : (mapRecordToTrack r).id = r.id := rfl

theorem mapRecordToTrack_title (r : TrackRecord) :
    (mapRecordToTrack r).title = r.title := rfl

theorem mapRecordToTrack_artist (r : TrackRecord) :
    (mapRecordToTrack r).artist = r.artist := rfl

theorem mapRecordToTrack_description (r : TrackRecord) :
    (mapRecordToTrack r).description = r.description := rfl

theorem mapRecordToTrack_category (r : TrackRecord) :
    (mapRecordToTrack r).category = r.category := rfl

theorem mapRecordToTrack_duration (r : TrackRecord) :
    (mapRecordToTrack r).duration = r.duration := rfl

theorem mapRecordToTrack_audioFileId (r : TrackRecord) :
    (mapRecordToTrack r).audioFileId = r.audioFileId := rfl

theorem mapRecordToTrack_coverImageId (r : TrackRecord) :
    (mapRecordToTrack r).coverImageId = r.coverImageId := rfl

theorem mapRecordToTrack_createdAt (r : TrackRecord) :
    (mapRecordToTrack r).createdAt = r.createdAt := rfl

theorem mapRecordToTrack_updatedAt (r : TrackRecord) :
    (mapRecordToTrack r).updatedAt = r.updatedAt := rfl

attribute [simp] mapRecordToTrack_id mapRecordToTrack_title
  mapRecordToTrack_artist mapRecordToTrack_description
  mapRecordToTrack_category mapRecordToTrack_duration
  mapRecordToTrack_audioFileId mapRecordToTrack_coverImageId
  mapRecordToTrack_createdAt mapRecordToTrack_updatedAt

theorem mergedRecord_id (ex : TrackRecord) (u : TrackUpdates) (a : String)
    (d : Int) (c : Option String) (tsU : Nat) :
    (mergedRecord ex u a d c tsU).id = ex.id := rfl

theorem mergedRecord_createdAt (ex : TrackRecord) (u : TrackUpdates)
    (a : String) (d : Int) (c : Option String) (tsU : Nat) :
    (mergedRecord ex u a d c tsU).createdAt = ex.createdAt := rfl

theorem mergedRecord_updatedAt (ex : TrackRecord) (u : TrackUpdates)
    (a : String) (d : Int) (c : Option String) (tsU : Nat) :
    (mergedRecord ex u a d c tsU).updatedAt = tsU := rfl

theorem mergedRecord_audioFileId (ex : TrackRecord) (u : TrackUpdates)
    (a : String) (d : Int) (c : Option String) (tsU : Nat) :
    (mergedRecord ex u a d c tsU).audioFileId = a := rfl

theorem mergedRecord_coverImageId (ex : TrackRecord) (u : TrackUpdates)
    (a : String) (d : Int) (c : Option String) (tsU : Nat) :
    (mergedRecord ex u a d c tsU).coverImageId = c := rfl

theorem mergedRecord_duration (ex : TrackRecord) (u : TrackUpdates)
    (a : String) (d : Int) (c : Option String) (tsU : Nat) :
    (mergedRecord ex u a d c tsU).duration = d := rfl

attribute [simp] mergedRecord_id mergedRecord_createdAt mergedRecord_updatedAt
  mergedRecord_audioFileId mergedRecord_coverImageId mergedRecord_duration

/-- The value emitted by the tail of `updateTrack` depends only on whether
the record write succeeds. -/
theorem finishUpdate_value (env : StorageEnv) (id : String) (ex : TrackRecord)
    (a : String) (d : Int) (c : Option String) (tsU : Nat) (u : TrackUpdates)
    (s : Store) (p0 : Projection) :
    (finishUpdate env id ex a d c tsU u s p0).value =
      if env.trackSaveOk ex.id = true
      then some (mapRecordToTrack (mergedRecord ex u a d c tsU))
      else none := by
  cases h : env.trackSaveOk ex.id <;> simp [finishUpdate, saveTrack, h]

/-- The projection after the tail of `updateTrack`. -/
theorem finishUpdate_proj (env : StorageEnv) (id : String) (ex : TrackRecord)
    (a : String) (d : Int) (c : Option String) (tsU : Nat) (u : TrackUpdates)
    (s : Store) (p0 : Projection) :
    (finishUpdate env id ex a d c tsU u s p0).proj =
      if env.trackSaveOk ex.id = true
      then
        { p0 with
          tracks := p0.tracks.map (fun t =>
            if t.id = id then mapRecordToTrack (mergedRecord ex u a d c tsU)
            else t)
          selected :=
            match p0.selected with
            | some sl =>
              if sl.id = id
              then some (mapRecordToTrack (mergedRecord ex u a d c tsU))
              else some sl
            | none => none
          state := OpState.success }
      else handleError p0 "Failed to update track" := by
  cases h : env.trackSaveOk ex.id <;> simp [finishUpdate, saveTrack, h]

/-- The store after the tail of `updateTrack`. -/
theorem finishUpdate_store (env : StorageEnv) (id : String) (ex : TrackRecord)
    (a : String) (d : Int) (c : Option String) (tsU : Nat) (u : TrackUpdates)
    (s : Store) (p0 : Projection) :
    (finishUpdate env id ex a d c tsU u s p0).store =
      if env.trackSaveOk ex.id = true
      then
        { s with tracks := fun k =>
            if k = ex.id then some (mergedRecord ex u a d c tsU)
            else s.tracks k }
      else s := by
  cases h : env.trackSaveOk ex.id <;> simp [finishUpdate, saveTrack, h]

/-- Once the record is found, `updateTrack` either aborts at the
new-audio write (emitting `null`) or runs the common tail `finishUpdate`
on some resolved blob ids, duration and intermediate store. -/
theorem updateTrack_shape (env : StorageEnv) (id : String) (tsA tsC tsU : Nat)
    (updates : TrackUpdates) (s : Store) (p : Projection) (ex : TrackRecord)
    (hex : getTrack s id = some ex) :
    (∃ a d c s', updateTrack env id tsA tsC tsU updates s p
        = finishUpdate env id ex a d c tsU updates s'
            { p with state := OpState.loading }) ∨
    (∃ s', updateTrack env id tsA tsC tsU updates s p
        = ⟨none, s', handleError { p with state := OpState.loading }
            "Failed to save new audio file"⟩) := by
  simp only [updateTrack, hex]
  cases updates.audioFile with
  | none =>
    cases updates.coverImage with
    | none => exact Or.inl ⟨_, _, _, _, rfl⟩
    | some cov => exact Or.inl ⟨_, _, _, _, rfl⟩
  | some af =>
    cases hsa : env.audioSaveOk ("audio-" ++ id ++ "-" ++ toString tsA)
    · simp [saveAudioFile, hsa]
    · simp [saveAudioFile, hsa]
      cases updates.coverImage with
      | none => exact Or.inl ⟨_, _, _, _, rfl⟩
      | some cov => exact Or.inl ⟨_, _, _, _, rfl⟩

/-- What a successful `updateTrack` emission guarantees: the emitted track
keeps the existing record's `id` and `createdAt`, carries the fresh
`updatedAt`, and the projection receives the replace-in-place edit with
state `success`, untouched error, and the selection updated in place. -/
theorem updateTrack_success_spec (env : StorageEnv) (id : String)
    (tsA tsC tsU : Nat) (updates : TrackUpdates) (s : Store) (p : Projection)
    (ex : TrackRecord) (tr : Track)
    (hex : getTrack s id = some ex)
    (h : (updateTrack env id tsA tsC tsU updates s p).value = some tr) :
    tr.createdAt = ex.createdAt ∧ tr.updatedAt = tsU ∧ tr.id = ex.id ∧
    (updateTrack env id tsA tsC tsU updates s p).proj.tracks
      = p.tracks.map (fun t => if t.id = id then tr else t) ∧
    (updateTrack env id tsA tsC tsU updates s p).proj.state
      = OpState.success ∧
    (updateTrack env id tsA tsC tsU updates s p).proj.error = p.error ∧
    (updateTrack env id tsA tsC tsU updates s p).proj.selected
      = (match p.selected with
         | some sl => if sl.id = id then some tr else some sl
         | none => none) := by
  rcases updateTrack_shape env id tsA tsC tsU updates s p ex hex with
    ⟨a, d, c, s', heq⟩ | ⟨s', heq⟩
  · rw [heq, finishUpdate_value] at h
    cases ht : env.trackSaveOk ex.id <;> rw [ht] at h <;> simp at h
    subst h
    rw [heq]
    refine ⟨by simp, by simp, by simp, ?_, ?_, ?_, ?_⟩ <;>
      rw [finishUpdate_proj, ht] <;> simp
  · rw [heq] at h
    simp at h

/-! ### Claim C1 -/

/-- C1, counterexample: the claim says any single failure among the fan-out
deletions surfaces as an overall failure of `deleteTrack`.  In the store
holding track `t1`, with an environment in which the audio-blob deletion
fails (the blob is still present afterwards), `deleteTrack` nevertheless
emits `true`: the failure does not surface. -/
theorem C1_deleteTrack_failure_not_surfaced_counterexample :
    envAudioDelFail.audioDeleteOk "audio-t1" = false ∧
    getTrack storeT1 "t1" = some recT1 ∧
    (deleteTrack envAudioDelFail "t1" storeT1 projIdle).store.audioFiles "audio-t1"
      = some fA ∧
    (deleteTrack envAudioDelFail "t1" storeT1 projIdle).value = true := by
  refine ⟨rfl, rfl, ?_, rfl⟩
  rfl

/-- C1 (amended): after finding the record, `deleteTrack` issues the
deletions of the audio blob, the record, and (when present) the cover blob
and waits for all of them to emit, but `map(() => true)` discards their
boolean results: an individual deletion failure does not surface, and
`deleteTrack` emits `true` whenever the record was found; only a missing
record makes it fail.  When the individual deletions do succeed, the
corresponding keys are removed from the store. -/
theorem C1_deleteTrack_attempts_all_and_swallows_failures
    (env : StorageEnv) (id : String) (s : Store) (p : Projection) :
    ((getTrack s id).isSome → (deleteTrack env id s p).value = true) ∧
    (getTrack s id = none →
      (deleteTrack env id s p).value = false ∧
      (deleteTrack env id s p).proj.state = OpState.error) ∧
    (∀ t, getTrack s id = some t →
      (env.audioDeleteOk t.audioFileId = true →
        (deleteTrack env id s p).store.audioFiles t.audioFileId = none) ∧
      (env.trackDeleteOk id = true →
        (deleteTrack env id s p).store.tracks id = none) ∧
      (∀ cid, t.coverImageId = some cid → env.coverDeleteOk cid = true →
        (deleteTrack env id s p).store.coverImages cid = none)) := by
  refine ⟨?_, ?_, ?_⟩
  · intro h
    cases hg : getTrack s id with
    | none => rw [hg] at h; simp at h
    | some t => simp only [deleteTrack, hg]
  · intro hg
    simp [deleteTrack, hg, handleError]
  · intro t hg
    cases hc : t.coverImageId with
    | none =>
      refine ⟨?_, ?_, ?_⟩
      · intro ha
        cases htd : env.trackDeleteOk id <;>
          simp [deleteTrack, hg, hc, deleteAudioFile, deleteTrackRecord, ha, htd]
      · intro ht
        cases had : env.audioDeleteOk t.audioFileId <;>
          simp [deleteTrack, hg, hc, deleteAudioFile, deleteTrackRecord, ht, had]
      · intro cid hcid
        simp at hcid
    | some c =>
      refine ⟨?_, ?_, ?_⟩
      · intro ha
        cases htd : env.trackDeleteOk id <;>
        cases hcd : env.coverDeleteOk c <;>
          simp [deleteTrack, hg, hc, deleteAudioFile, deleteTrackRecord,
            deleteCoverImage, ha, htd, hcd]
      · intro ht
        cases had : env.audioDeleteOk t.audioFileId <;>
        cases hcd : env.coverDeleteOk c <;>
          simp [deleteTrack, hg, hc, deleteAudioFile, deleteTrackRecord,
            deleteCoverImage, ht, had, hcd]
      · intro cid hcid hcov
        injection hcid with h
        subst h
        cases had : env.audioDeleteOk t.audioFileId <;>
        cases htd : env.trackDeleteOk id <;>
          simp [deleteTrack, hg, hc, deleteAudioFile, deleteTrackRecord,
            deleteCoverImage, hcov, had, htd]

/-- C1, witness: the amended theorem applied to the concrete store holding
track `t1` (all deletions succeeding) and to the absent id `t2`. -/
theorem C1_deleteTrack_witness :
    (deleteTrack envAllOk "t1" storeT1 projIdle).value = true ∧
    (deleteTrack envAllOk "t1" storeT1 projIdle).store.audioFiles "audio-t1" = none ∧
    (deleteTrack envAllOk "t1" storeT1 projIdle).store.tracks "t1" = none ∧
    (deleteTrack envAllOk "t1" storeT1 projIdle).store.coverImages "cover-t1" = none ∧
    (deleteTrack envAllOk "t2" storeT1 projIdle).value = false := by
  obtain ⟨h1, -, h3⟩ :=
    C1_deleteTrack_attempts_all_and_swallows_failures envAllOk "t1" storeT1 projIdle
  obtain ⟨ha, ht, hcov⟩ := h3 recT1 rfl
  exact ⟨h1 rfl, ha rfl, ht rfl, hcov "cover-t1" rfl rfl,
    ((C1_deleteTrack_attempts_all_and_swallows_failures envAllOk "t2" storeT1
      projIdle).2.1 rfl).1⟩

/-! ### Claim C2 -/

/-- C2: evaluation at the failing input.  Track `t1` owns cover blob
`cover-t1`; a cover-only update is issued in an environment where the new
cover write fails.  The `tap` deleting the old cover runs on the emission of
`saveCoverImage` regardless of its boolean value, so the old cover blob is
deleted even though the new cover blob was never durably written, and the
otherwise-successful update leaves the record still referencing the old,
now-deleted id. -/
theorem C2_updateTrack_old_cover_deleted_despite_failed_write :
    storeT1.coverImages "cover-t1" = some fC ∧
    envCoverSaveFail.coverSaveOk "cover-t1-201" = false ∧
    (updateTrack envCoverSaveFail "t1" 200 201 202 updCoverOnly storeT1
      projIdle).store.coverImages "cover-t1-201" = none ∧
    (updateTrack envCoverSaveFail "t1" 200 201 202 updCoverOnly storeT1
      projIdle).store.coverImages "cover-t1" = none ∧
    Option.map (fun t => t.coverImageId)
      (updateTrack envCoverSaveFail "t1" 200 201 202 updCoverOnly storeT1
        projIdle).value = some (some "cover-t1") := by
  exact ⟨rfl, rfl, rfl, rfl, rfl⟩

/-! ### Claim C3 -/

/-- C3: `createTrack` fails as a whole when either mandatory write fails.
If the audio-blob write fails, the operation emits `null` and nothing at
all has been written (the store is untouched, in particular no record).  If
the final record write fails, the operation emits `null` even though the
audio blob (and possibly the cover blob) was already written; the record
store itself is untouched. -/
theorem C3_createTrack_mandatory_write_failures
    (env : StorageEnv) (tid : String) (now : Nat) (formData : TrackFormData)
    (s : Store) (p : Projection) :
    (env.audioSaveOk ("audio-" ++ tid) = false →
      (createTrack env tid now formData s p).value = none ∧
      (createTrack env tid now formData s p).store = s) ∧
    (env.audioSaveOk ("audio-" ++ tid) = true → env.trackSaveOk tid = false →
      (createTrack env tid now formData s p).value = none ∧
      (createTrack env tid now formData s p).store.audioFiles ("audio-" ++ tid)
        = some formData.audioFile ∧
      ∀ k, (createTrack env tid now formData s p).store.tracks k = s.tracks k) := by
  constructor
  · intro ha
    constructor <;> simp [createTrack, saveAudioFile, ha]
  · intro ha ht
    cases hcov : formData.coverImage with
    | none =>
      refine ⟨?_, ?_, fun k => ?_⟩ <;>
        simp [createTrack, saveAudioFile, saveCoverImage, saveTrack, hcov, ha, ht]
    | some cov =>
      cases hcs : env.coverSaveOk ("cover-" ++ tid) <;>
        refine ⟨?_, ?_, fun k => ?_⟩ <;>
          simp [createTrack, saveAudioFile, saveCoverImage, saveTrack, hcov,
            ha, ht, hcs]

/-- C3, witness: the theorem applied to the audio-write-failing and
record-write-failing environments on the empty store. -/
theorem C3_createTrack_witness :
    ((createTrack envAudioSaveFail "t1" 100 form1 emptyStore projIdle).value
        = none ∧
     (createTrack envAudioSaveFail "t1" 100 form1 emptyStore projIdle).store
        = emptyStore) ∧
    ((createTrack envTrackSaveFail "t1" 100 form1 emptyStore projIdle).value
        = none ∧
     (createTrack envTrackSaveFail "t1" 100 form1 emptyStore
        projIdle).store.audioFiles "audio-t1" = some fA ∧
     (createTrack envTrackSaveFail "t1" 100 form1 emptyStore
        projIdle).store.tracks "t1" = none) := by
  obtain ⟨h1, -⟩ := C3_createTrack_mandatory_write_failures envAudioSaveFail
    "t1" 100 form1 emptyStore projIdle
  obtain ⟨-, h2⟩ := C3_createTrack_mandatory_write_failures envTrackSaveFail
    "t1" 100 form1 emptyStore projIdle
  obtain ⟨w1, w2, w3⟩ := h2 rfl rfl
  exact ⟨h1 rfl, w1, w2, (w3 "t1").trans rfl⟩

/-! ### Claim C4 -/

/-- C4: when a cover image is supplied and its write fails, `createTrack`
still succeeds: the emitted track carries no cover id (`coverImageId`
absent) instead of the creation aborting. -/
theorem C4_createTrack_cover_failure_nonfatal
    (env : StorageEnv) (tid : String) (now : Nat) (formData : TrackFormData)
    (s : Store) (p : Projection) (cov : FileData)
    (hcov : formData.coverImage = some cov)
    (ha : env.audioSaveOk ("audio-" ++ tid) = true)
    (hc : env.coverSaveOk ("cover-" ++ tid) = false)
    (ht : env.trackSaveOk tid = true) :
    ∃ tr, (createTrack env tid now formData s p).value = some tr ∧
      tr.coverImageId = none ∧ tr.id = tid ∧
      tr.audioFileId = "audio-" ++ tid := by
  have h : (createTrack env tid now formData s p).value = some (mapRecordToTrack
      { id := tid
        title := jsTrim formData.title
        artist := jsTrim formData.artist
        description := formData.description.map jsTrim
        category := formData.category
        duration := getAudioDuration formData.audioFile
        audioFileId := "audio-" ++ tid
        coverImageId := none
        createdAt := now
        updatedAt := now }) := by
    simp [createTrack, saveAudioFile, saveCoverImage, saveTrack, hcov, ha, hc, ht]
  exact ⟨_, h, rfl, rfl, rfl⟩

/-- C4, witness: the theorem applied to the cover-save-failing environment
on the empty store. -/
theorem C4_createTrack_cover_failure_witness :
    ∃ tr, (createTrack envCoverSaveFail "t1" 100 form1 emptyStore
        projIdle).value = some tr ∧
      tr.coverImageId = none ∧ tr.id = "t1" ∧
      tr.audioFileId = "audio-" ++ "t1" :=
  C4_createTrack_cover_failure_nonfatal envCoverSaveFail "t1" 100 form1
    emptyStore projIdle fC rfl rfl rfl rfl

/-! ### Claim C5 -/

/-- C5, counterexample: the claim requires `audioFileId = audio-<trackId>`
and `coverImageId = cover-<trackId>-<timestamp>` for every produced track.
Both shapes fail on the code: a cover written by `createTrack` gets the id
`cover-<trackId>` with no timestamp (so it does not even start with
`cover-<trackId>-`, which any id of the claimed shape would), and an audio
replacement in `updateTrack` produces `audio-<trackId>-<timestamp>`, not
`audio-<trackId>`. -/
theorem C5_blob_id_shape_counterexample :
    Option.map (fun t => t.coverImageId)
      (createTrack envAllOk "t1" 100 form1 emptyStore projIdle).value
      = some (some "cover-t1") ∧
    ("cover-t1".startsWith ("cover-" ++ "t1" ++ "-")) = false ∧
    Option.map (fun t => t.audioFileId)
      (updateTrack envAllOk "t1" 200 201 202 updAudioOnly storeT1
        projIdle).value = some "audio-t1-200" ∧
    "audio-t1-200" ≠ "audio-" ++ "t1" := by
  refine ⟨rfl, ?_, rfl, ?_⟩ <;> decide

/-- C5 (amended): blob ids are track-scoped but their shapes are:
`audio-<trackId>` and `cover-<trackId>` at creation, and
`audio-<trackId>-<timestamp>` / `cover-<trackId>-<timestamp>` for blobs
written by an update; an update leaves each blob id either unchanged or
replaced by the corresponding timestamp-qualified id of the same track. -/
theorem C5_blob_ids_track_scoped :
    (∀ (env : StorageEnv) (tid : String) (now : Nat)
        (formData : TrackFormData) (s : Store) (p : Projection) (tr : Track),
      (createTrack env tid now formData s p).value = some tr →
      tr.id = tid ∧ tr.audioFileId = "audio-" ++ tid ∧
      (tr.coverImageId = none ∨ tr.coverImageId = some ("cover-" ++ tid))) ∧
    (∀ (env : StorageEnv) (id : String) (tsA tsC tsU : Nat)
        (updates : TrackUpdates) (s : Store) (p : Projection)
        (ex : TrackRecord) (tr : Track),
      getTrack s id = some ex →
      (updateTrack env id tsA tsC tsU updates s p).value = some tr →
      (tr.audioFileId = ex.audioFileId ∨
        tr.audioFileId = "audio-" ++ id ++ "-" ++ toString tsA) ∧
      (tr.coverImageId = ex.coverImageId ∨
        tr.coverImageId = some ("cover-" ++ id ++ "-" ++ toString tsC))) := by
  constructor
  · intro env tid now formData s p tr h
    cases ha : env.audioSaveOk ("audio-" ++ tid)
    · simp [createTrack, saveAudioFile, ha] at h
    · cases hcov : formData.coverImage with
      | none =>
        cases ht : env.trackSaveOk tid
        · simp [createTrack, saveAudioFile, saveTrack, ha, hcov, ht] at h
        · simp [createTrack, saveAudioFile, saveTrack, ha, hcov, ht] at h
          subst h
          exact ⟨rfl, rfl, Or.inl rfl⟩
      | some cov =>
        cases ht : env.trackSaveOk tid
        · cases hcs : env.coverSaveOk ("cover-" ++ tid) <;>
            simp [createTrack, saveAudioFile, saveCoverImage, saveTrack, ha,
              hcov, hcs, ht] at h
        · cases hcs : env.coverSaveOk ("cover-" ++ tid) <;>
            simp [createTrack, saveAudioFile, saveCoverImage, saveTrack, ha,
              hcov, hcs, ht] at h
          · subst h
            exact ⟨rfl, rfl, Or.inl rfl⟩
          · subst h
            exact ⟨rfl, rfl, Or.inr rfl⟩
  · intro env id tsA tsC tsU updates s p ex tr hex h
    simp only [updateTrack, hex] at h
    cases haf : updates.audioFile with
    | none =>
      rw [haf] at h
      cases hcf : updates.coverImage with
      | none =>
        rw [hcf, finishUpdate_value] at h
        cases ht : env.trackSaveOk ex.id <;> rw [ht] at h <;> simp at h
        subst h
        exact ⟨Or.inl (by simp), Or.inl (by simp)⟩
      | some cov =>
        rw [hcf] at h
        cases hcs : env.coverSaveOk ("cover-" ++ id ++ "-" ++ toString tsC)
        · simp [saveCoverImage, hcs] at h
          rw [finishUpdate_value] at h
          cases ht : env.trackSaveOk ex.id <;> rw [ht] at h <;> simp at h
          subst h
          exact ⟨Or.inl (by simp), Or.inl (by simp)⟩
        · simp [saveCoverImage, hcs] at h
          rw [finishUpdate_value] at h
          cases ht : env.trackSaveOk ex.id <;> rw [ht] at h <;> simp at h
          subst h
          exact ⟨Or.inl (by simp), Or.inr (by simp)⟩
    | some af =>
      rw [haf] at h
      cases has : env.audioSaveOk ("audio-" ++ id ++ "-" ++ toString tsA)
      · simp [saveAudioFile, has] at h
      · simp [saveAudioFile, has] at h
        cases hcf : updates.coverImage with
        | none =>
          rw [hcf] at h
          simp only [] at h
          rw [finishUpdate_value] at h
          cases ht : env.trackSaveOk ex.id <;> rw [ht] at h <;> simp at h
          subst h
          exact ⟨Or.inr (by simp), Or.inl (by simp)⟩
        | some cov =>
          rw [hcf] at h
          cases hcs : env.coverSaveOk ("cover-" ++ id ++ "-" ++ toString tsC)
          · simp [saveCoverImage, hcs] at h
            rw [finishUpdate_value] at h
            cases ht : env.trackSaveOk ex.id <;> rw [ht] at h <;> simp at h
            subst h
            exact ⟨Or.inr (by simp), Or.inl (by simp)⟩
          · simp [saveCoverImage, hcs] at h
            rw [finishUpdate_value] at h
            cases ht : env.trackSaveOk ex.id <;> rw [ht] at h <;> simp at h
            subst h
            exact ⟨Or.inr (by simp), Or.inr (by simp)⟩

/-- C5, witness: the amended theorem applied to a concrete creation with a
cover and a concrete audio-replacing update of track `t1`. -/
theorem C5_blob_ids_witness :
    (trkT1.id = "t1" ∧ trkT1.audioFileId = "audio-" ++ "t1" ∧
      (trkT1.coverImageId = none ∨
        trkT1.coverImageId = some ("cover-" ++ "t1"))) ∧
    ((trkT1upd.audioFileId = recT1.audioFileId ∨
        trkT1upd.audioFileId = "audio-" ++ "t1" ++ "-" ++ toString 200) ∧
      (trkT1upd.coverImageId = recT1.coverImageId ∨
        trkT1upd.coverImageId = some ("cover-" ++ "t1" ++ "-" ++ toString 201))) := by
  constructor
  · exact C5_blob_ids_track_scoped.1 envAllOk "t1" 100 form1 emptyStore
      projIdle trkT1 (by decide)
  · exact C5_blob_ids_track_scoped.2 envAllOk "t1" 200 201 202 updAudioOnly
      storeT1 projIdle recT1 trkT1upd rfl (by decide)

/-! ### Claim C6 -/

/-- Replacing, in a strictly-descending list, every element of a given id
by a track with the same creation time preserves strict descending order. -/
theorem sortedByCreatedAtDesc_replace (l : List Track) (id : String)
    (tr : Track) (hs : sortedByCreatedAtDesc l)
    (hc : ∀ t ∈ l, t.id = id → t.createdAt = tr.createdAt) :
    sortedByCreatedAtDesc (l.map (fun t => if t.id = id then tr else t)) := by
  rw [sortedByCreatedAtDesc, List.pairwise_map]
  refine List.Pairwise.imp_of_mem ?_ hs
  intro a b ha hb hR
  have ea : (if a.id = id then tr else a).createdAt = a.createdAt := by
    split
    · next h => exact (hc a ha h).symm
    · rfl
  have eb : (if b.id = id then tr else b).createdAt = b.createdAt := by
    split
    · next h => exact (hc b hb h).symm
    · rfl
  rw [ea, eb]
  exact hR

/-- C6: the projection's list is strictly sorted by `createdAt` descending
whenever all creation timestamps are distinct, and each operation maintains
it by its minimal-diff edit: the full reload sorts explicitly (emitting a
permutation of the hydrated records), a successful create prepends the new
track (whose `createdAt` is the assembly time `now`, so sortedness is kept
when `now` is fresher than every listed track), a successful update
replaces in place without changing `createdAt`, and delete filters out the
deleted id. -/
theorem C6_projection_list_sorted :
    (∀ (records : List TrackRecord) (p : Projection),
      (records.map TrackRecord.createdAt).Pairwise (fun a b => a ≠ b) →
      sortedByCreatedAtDesc (loadTracks records p).tracks ∧
      (loadTracks records p).tracks.Perm (records.map mapRecordToTrack)) ∧
    (∀ (env : StorageEnv) (tid : String) (now : Nat)
        (formData : TrackFormData) (s : Store) (p : Projection) (tr : Track),
      (createTrack env tid now formData s p).value = some tr →
      (createTrack env tid now formData s p).proj.tracks = tr :: p.tracks ∧
      tr.createdAt = now ∧
      (sortedByCreatedAtDesc p.tracks →
        (∀ t ∈ p.tracks, t.createdAt < now) →
        sortedByCreatedAtDesc
          ((createTrack env tid now formData s p).proj.tracks))) ∧
    (∀ (env : StorageEnv) (id : String) (tsA tsC tsU : Nat)
        (updates : TrackUpdates) (s : Store) (p : Projection)
        (ex : TrackRecord) (tr : Track),
      getTrack s id = some ex →
      (updateTrack env id tsA tsC tsU updates s p).value = some tr →
      tr.createdAt = ex.createdAt ∧
      (updateTrack env id tsA tsC tsU updates s p).proj.tracks
        = p.tracks.map (fun t => if t.id = id then tr else t) ∧
      (sortedByCreatedAtDesc p.tracks →
        (∀ t ∈ p.tracks, t.id = id → t.createdAt = ex.createdAt) →
        sortedByCreatedAtDesc
          ((updateTrack env id tsA tsC tsU updates s p).proj.tracks))) ∧
    (∀ (env : StorageEnv) (id : String) (s : Store) (p : Projection),
      ((deleteTrack env id s p).value = true →
        (deleteTrack env id s p).proj.tracks
          = p.tracks.filter (fun t => t.id != id)) ∧
      (sortedByCreatedAtDesc p.tracks →
        sortedByCreatedAtDesc ((deleteTrack env id s p).proj.tracks))) := by
  refine ⟨?_, ?_, ?_, ?_⟩
  · intro records p hdist
    have hsorted : List.Pairwise
        (fun a b : Track => decide (b.createdAt ≤ a.createdAt) = true)
        ((records.map mapRecordToTrack).mergeSort
          (fun a b => decide (b.createdAt ≤ a.createdAt))) :=
      List.sorted_mergeSort
        (fun a b c hab hbc => by
          simp only [decide_eq_true_eq] at hab hbc ⊢
          exact le_trans hbc hab)
        (fun a b => by
          simp only [Bool.or_eq_true, decide_eq_true_eq]
          exact le_total b.createdAt a.createdAt)
        (records.map mapRecordToTrack)
    have hperm := List.mergeSort_perm (records.map mapRecordToTrack)
      (fun a b => decide (b.createdAt ≤ a.createdAt))
    constructor
    · have hle : List.Pairwise (fun a b : Track => b.createdAt ≤ a.createdAt)
          ((records.map mapRecordToTrack).mergeSort
            (fun a b => decide (b.createdAt ≤ a.createdAt))) :=
        hsorted.imp (fun h => of_decide_eq_true h)
      have hd1 : records.Pairwise
          (fun a b => a.createdAt ≠ b.createdAt) := by
        have := List.pairwise_map.mp hdist
        exact this
      have hd2 : (records.map mapRecordToTrack).Pairwise
          (fun a b : Track => a.createdAt ≠ b.createdAt) := by
        rw [List.pairwise_map]
        exact hd1.imp (fun h => by simpa using h)
      have hd3 : ((records.map mapRecordToTrack).mergeSort
            (fun a b => decide (b.createdAt ≤ a.createdAt))).Pairwise
          (fun a b : Track => a.createdAt ≠ b.createdAt) :=
        (List.Perm.pairwise_iff (fun h => h.symm) hperm).mpr hd2
      have := (hle.and hd3).imp
        (fun h => lt_of_le_of_ne h.1 (Ne.symm h.2))
      simpa [loadTracks, sortTracks, sortedByCreatedAtDesc] using this
    · simpa [loadTracks, sortTracks] using hperm
  · intro env tid now formData s p tr h
    have main : ∀ tr' : Track,
        (createTrack env tid now formData s p).proj.tracks = tr' :: p.tracks →
        tr'.createdAt = now →
        (createTrack env tid now formData s p).proj.tracks = tr' :: p.tracks ∧
        tr'.createdAt = now ∧
        (sortedByCreatedAtDesc p.tracks →
          (∀ t ∈ p.tracks, t.createdAt < now) →
          sortedByCreatedAtDesc
            ((createTrack env tid now formData s p).proj.tracks)) := by
      intro tr' hB hA
      refine ⟨hB, hA, ?_⟩
      intro hs hlt
      rw [hB, sortedByCreatedAtDesc, List.pairwise_cons]
      refine ⟨fun b hb => ?_, hs⟩
      rw [hA]
      exact hlt b hb
    cases ha : env.audioSaveOk ("audio-" ++ tid)
    · simp [createTrack, saveAudioFile, ha] at h
    · cases hcov : formData.coverImage with
      | none =>
        cases ht : env.trackSaveOk tid
        · simp [createTrack, saveAudioFile, saveTrack, ha, hcov, ht] at h
        · simp [createTrack, saveAudioFile, saveTrack, ha, hcov, ht] at h
          subst h
          exact main _
            (by simp [createTrack, saveAudioFile, saveTrack, ha, hcov, ht])
            (by simp)
      | some cov =>
        cases ht : env.trackSaveOk tid
        · cases hcs : env.coverSaveOk ("cover-" ++ tid) <;>
            simp [createTrack, saveAudioFile, saveCoverImage, saveTrack, ha,
              hcov, hcs, ht] at h
        · cases hcs : env.coverSaveOk ("cover-" ++ tid) <;>
            simp [createTrack, saveAudioFile, saveCoverImage, saveTrack, ha,
              hcov, hcs, ht] at h
          · subst h
            exact main _
              (by simp [createTrack, saveAudioFile, saveCoverImage, saveTrack,
                ha, hcov, hcs, ht])
              (by simp)
          · subst h
            exact main _
              (by simp [createTrack, saveAudioFile, saveCoverImage, saveTrack,
                ha, hcov, hcs, ht])
              (by simp)
  · intro env id tsA tsC tsU updates s p ex tr hex h
    obtain ⟨hA, -, -, hB, -⟩ :=
      updateTrack_success_spec env id tsA tsC tsU updates s p ex tr hex h
    refine ⟨hA, hB, ?_⟩
    intro hs hc
    rw [hB]
    exact sortedByCreatedAtDesc_replace _ _ _ hs
      (fun t ht hid => (hc t ht hid).trans hA.symm)
  · intro env id s p
    constructor
    · intro h
      cases hg : getTrack s id
      · simp [deleteTrack, hg] at h
      · simp [deleteTrack, hg]
    · intro hs
      cases hg : getTrack s id
      · simpa [deleteTrack, hg, handleError] using hs
      · rw [sortedByCreatedAtDesc] at hs ⊢
        simp only [deleteTrack, hg]
        exact List.Pairwise.filter _ hs

/-- C6, witness: the four parts applied to concrete runs — a reload of
`[recT1]`, a creation of `t2` at time 300 on top of the `[trkT1]` list, a
cover-only update of `t1`, and a deletion of `t1`. -/
theorem C6_projection_list_sorted_witness :
    sortedByCreatedAtDesc (loadTracks [recT1] projIdle).tracks ∧
    (createTrack envAllOk "t2" 300 form1 storeT1 projT1).proj.tracks
      = trkT2 :: projT1.tracks ∧
    sortedByCreatedAtDesc
      ((createTrack envAllOk "t2" 300 form1 storeT1 projT1).proj.tracks) ∧
    (updateTrack envAllOk "t1" 200 201 202 updCoverOnly storeT1
        projT1).proj.tracks
      = projT1.tracks.map (fun t => if t.id = "t1" then trkT1covUpd else t) ∧
    sortedByCreatedAtDesc
      ((updateTrack envAllOk "t1" 200 201 202 updCoverOnly storeT1
        projT1).proj.tracks) ∧
    (deleteTrack envAllOk "t1" storeT1 projT1).proj.tracks
      = projT1.tracks.filter (fun t => t.id != "t1") ∧
    sortedByCreatedAtDesc
      ((deleteTrack envAllOk "t1" storeT1 projT1).proj.tracks) := by
  obtain ⟨p1, p2, p3, p4⟩ := C6_projection_list_sorted
  obtain ⟨c1, -, c3⟩ := p2 envAllOk "t2" 300 form1 storeT1 projT1 trkT2
    (by decide)
  obtain ⟨-, u2, u3⟩ := p3 envAllOk "t1" 200 201 202 updCoverOnly storeT1
    projT1 recT1 trkT1covUpd rfl (by decide)
  obtain ⟨d1, d2⟩ := p4 envAllOk "t1" storeT1 projT1
  have hs1 : sortedByCreatedAtDesc projT1.tracks := by
    simp [projT1, sortedByCreatedAtDesc]
  refine ⟨(p1 [recT1] projIdle (by simp)).1, c1, ?_, u2, ?_, d1 rfl, d2 hs1⟩
  · exact c3 hs1 (by decide)
  · exact u3 hs1 (fun t ht hid => by
      simp [projT1] at ht
      subst ht
      rfl)

/-! ### Claim C7 -/

/-- C7, counterexample: a cover-only update of `t1` in an environment where
the new cover write fails still succeeds (a track is emitted), but its
`coverImageId` is unchanged (`cover-t1`, the existing value) — refuting the
claim that every successful cover-only update changes `coverImageId`. -/
theorem C7_cover_only_update_counterexample :
    recT1.coverImageId = some "cover-t1" ∧
    Option.map (fun t => t.coverImageId)
      (updateTrack envCoverSaveFail "t1" 200 201 202 updCoverOnly storeT1
        projIdle).value = some (some "cover-t1") := by
  exact ⟨rfl, rfl⟩

/-- C7 (amended): for every existing track, a successful `updateTrack`
supplying only a new cover image *whose cover write succeeds* sets
`coverImageId` to the fresh `cover-<id>-<timestamp>` id (changing it
whenever the old value is not already that exact id) and leaves
`audioFileId`, `duration`, `title`, `artist`, `description`, `category`
and `createdAt` at their previous values, with `updatedAt` set to the
operation's current time.  (When the cover write fails the update still
succeeds with `coverImageId` unchanged, as the counterexample shows.) -/
theorem C7_cover_only_update_frame (env : StorageEnv) (id : String)
    (tsA tsC tsU : Nat) (cov : FileData) (s : Store) (p : Projection)
    (ex : TrackRecord)
    (hex : getTrack s id = some ex)
    (hcs : env.coverSaveOk ("cover-" ++ id ++ "-" ++ toString tsC) = true)
    (ht : env.trackSaveOk ex.id = true) :
    ∃ tr, (updateTrack env id tsA tsC tsU { coverImage := some cov } s
        p).value = some tr ∧
      tr.coverImageId = some ("cover-" ++ id ++ "-" ++ toString tsC) ∧
      tr.audioFileId = ex.audioFileId ∧
      tr.duration = ex.duration ∧
      tr.title = ex.title ∧ tr.artist = ex.artist ∧
      tr.description = ex.description ∧ tr.category = ex.category ∧
      tr.createdAt = ex.createdAt ∧ tr.updatedAt = tsU ∧
      (ex.coverImageId ≠ some ("cover-" ++ id ++ "-" ++ toString tsC) →
        tr.coverImageId ≠ ex.coverImageId) := by
  have hv : (updateTrack env id tsA tsC tsU { coverImage := some cov } s
      p).value = some (mapRecordToTrack (mergedRecord ex
        { coverImage := some cov } ex.audioFileId ex.duration
        (some ("cover-" ++ id ++ "-" ++ toString tsC)) tsU)) := by
    simp only [updateTrack, hex]
    simp only [saveCoverImage, hcs]
    rw [finishUpdate_value, ht]
    simp
  refine ⟨_, hv, by simp, by simp, by simp, ?_, ?_, ?_, ?_, by simp, by simp,
    ?_⟩
  · simp [mergedRecord]
  · simp [mergedRecord]
  · simp [mergedRecord]
  · simp [mergedRecord]
  · intro hne hEq
    exact hne ((by simp : (mapRecordToTrack (mergedRecord ex
      { coverImage := some cov } ex.audioFileId ex.duration
      (some ("cover-" ++ id ++ "-" ++ toString tsC)) tsU)).coverImageId
        = some ("cover-" ++ id ++ "-" ++ toString tsC)) ▸ hEq.symm ▸ rfl)

/-- C7, witness: the amended theorem applied to the concrete cover-only
update of `t1` in the all-succeeding environment. -/
theorem C7_cover_only_update_witness :
    ∃ tr, (updateTrack envAllOk "t1" 200 201 202
        { coverImage := some fC } storeT1 projIdle).value = some tr ∧
      tr.coverImageId = some ("cover-" ++ "t1" ++ "-" ++ toString 201) ∧
      tr.audioFileId = recT1.audioFileId ∧
      tr.duration = recT1.duration ∧
      tr.title = recT1.title ∧ tr.artist = recT1.artist ∧
      tr.description = recT1.description ∧ tr.category = recT1.category ∧
      tr.createdAt = recT1.createdAt ∧ tr.updatedAt = 202 ∧
      (recT1.coverImageId ≠ some ("cover-" ++ "t1" ++ "-" ++ toString 201) →
        tr.coverImageId ≠ recT1.coverImageId) :=
  C7_cover_only_update_frame envAllOk "t1" 200 201 202 fC storeT1 projIdle
    recT1 rfl rfl rfl

/-- When the audio write and the record write both succeed, `createTrack`
emits the hydrated assembled record (cover id present exactly when a cover
was supplied and its write succeeded). -/
theorem createTrack_value_ok (env : StorageEnv) (tid : String) (now : Nat)
    (formData : TrackFormData) (s : Store) (p : Projection)
    (ha : env.audioSaveOk ("audio-" ++ tid) = true)
    (ht : env.trackSaveOk tid = true) :
    (createTrack env tid now formData s p).value
      = some (mapRecordToTrack
        { id := tid
          title := jsTrim formData.title
          artist := jsTrim formData.artist
          description := formData.description.map jsTrim
          category := formData.category
          duration := getAudioDuration formData.audioFile
          audioFileId := "audio-" ++ tid
          coverImageId :=
            match formData.coverImage with
            | some _ =>
              if env.coverSaveOk ("cover-" ++ tid) = true
              then some ("cover-" ++ tid) else none
            | none => none
          createdAt := now
          updatedAt := now }) := by
  cases hcov : formData.coverImage with
  | none => simp [createTrack, saveAudioFile, saveTrack, ha, ht, hcov]
  | some cov =>
    cases hcs : env.coverSaveOk ("cover-" ++ tid) <;>
      simp [createTrack, saveAudioFile, saveCoverImage, saveTrack, ha, ht,
        hcov, hcs]

/-! ### Claim C8 -/

/-- C8: every successfully created track has `duration ≥ 0` (given the
prober contract that decoded durations are nonnegative), and an
undecodable audio payload probes to 0, yields a created track with
`duration = 0`, and does not prevent the creation from succeeding. -/
theorem C8_duration_nonneg_and_undecodable (env : StorageEnv) (tid : String)
    (now : Nat) (formData : TrackFormData) (s : Store) (p : Projection) :
    ((∀ d, formData.audioFile.decoded = some d → 0 ≤ d) →
      ∀ tr, (createTrack env tid now formData s p).value = some tr →
        0 ≤ tr.duration) ∧
    (formData.audioFile.decoded = none →
      getAudioDuration formData.audioFile = 0 ∧
      (env.audioSaveOk ("audio-" ++ tid) = true →
        env.trackSaveOk tid = true →
        ∃ tr, (createTrack env tid now formData s p).value = some tr ∧
          tr.duration = 0)) := by
  have hdur : ∀ tr, (createTrack env tid now formData s p).value = some tr →
      tr.duration = getAudioDuration formData.audioFile := by
    intro tr h
    cases ha : env.audioSaveOk ("audio-" ++ tid)
    · simp [createTrack, saveAudioFile, ha] at h
    · cases hcov : formData.coverImage with
      | none =>
        cases ht : env.trackSaveOk tid <;>
          simp [createTrack, saveAudioFile, saveTrack, ha, hcov, ht] at h
        subst h
        simp
      | some cov =>
        cases ht : env.trackSaveOk tid
        · cases hcs : env.coverSaveOk ("cover-" ++ tid) <;>
            simp [createTrack, saveAudioFile, saveCoverImage, saveTrack, ha,
              hcov, hcs, ht] at h
        · cases hcs : env.coverSaveOk ("cover-" ++ tid) <;>
            simp [createTrack, saveAudioFile, saveCoverImage, saveTrack, ha,
              hcov, hcs, ht] at h <;> subst h <;> simp
  constructor
  · intro hp tr h
    rw [hdur tr h]
    cases hd : formData.audioFile.decoded with
    | none => simp [getAudioDuration, hd]
    | some d =>
      rw [getAudioDuration, hd]
      exact hp d hd
  · intro hdec
    refine ⟨by simp [getAudioDuration, hdec], ?_⟩
    intro ha ht
    refine ⟨_, createTrack_value_ok env tid now formData s p ha ht, ?_⟩
    simp [getAudioDuration, hdec]

/-- C8, witness: the theorem applied to a decodable 3-second payload and to
the undecodable payload `fBad`, both in the all-succeeding environment. -/
theorem C8_duration_witness :
    (∀ tr, (createTrack envAllOk "t1" 100 form1 emptyStore projIdle).value
        = some tr → 0 ≤ tr.duration) ∧
    getAudioDuration formBad.audioFile = 0 ∧
    (∃ tr, (createTrack envAllOk "t1" 100 formBad emptyStore projIdle).value
        = some tr ∧ tr.duration = 0) := by
  obtain ⟨h1, -⟩ := C8_duration_nonneg_and_undecodable envAllOk "t1" 100
    form1 emptyStore projIdle
  obtain ⟨-, h2⟩ := C8_duration_nonneg_and_undecodable envAllOk "t1" 100
    formBad emptyStore projIdle
  obtain ⟨h3, h4⟩ := h2 rfl
  exact ⟨h1 (fun d hd => by
    simp only [form1, fA] at hd
    injection hd with hd
    omega), h3, h4 rfl rfl⟩

/-! ### Claim C9 -/

/-- C9: a successful `deleteTrack` on the currently selected track's id
clears the selection, and deleting a track that is not the selected one
(or with no selection) leaves the selection unchanged. -/
theorem C9_delete_clears_selection (env : StorageEnv) (id : String)
    (s : Store) (p : Projection) :
    (∀ sl, p.selected = some sl → sl.id = id →
      (deleteTrack env id s p).value = true →
      (deleteTrack env id s p).proj.selected = none) ∧
    (∀ sl, p.selected = some sl → sl.id ≠ id →
      (deleteTrack env id s p).proj.selected = some sl) ∧
    (p.selected = none → (deleteTrack env id s p).proj.selected = none) := by
  cases hg : getTrack s id with
  | none =>
    refine ⟨?_, ?_, ?_⟩
    · intro sl hsel hid hval
      simp [deleteTrack, hg] at hval
    · intro sl hsel hid
      simp [deleteTrack, hg, handleError, hsel]
    · intro hsel
      simp [deleteTrack, hg, handleError, hsel]
  | some t =>
    refine ⟨?_, ?_, ?_⟩
    · intro sl hsel hid hval
      simp [deleteTrack, hg, hsel, hid]
    · intro sl hsel hid
      simp [deleteTrack, hg, hsel, hid]
    · intro hsel
      simp [deleteTrack, hg, hsel]

/-- C9, witness: the theorem applied to deleting the selected `t1` (cleared)
and to a failing delete of the absent `t2` (selection kept). -/
theorem C9_delete_selection_witness :
    (deleteTrack envAllOk "t1" storeT1 projSelT1).proj.selected = none ∧
    (deleteTrack envAllOk "t2" storeT1 projSelT1).proj.selected
      = some trkT1 := by
  constructor
  · exact (C9_delete_clears_selection envAllOk "t1" storeT1
      projSelT1).1 trkT1 rfl rfl rfl
  · exact (C9_delete_clears_selection envAllOk "t2" storeT1
      projSelT1).2.1 trkT1 rfl (by decide)

/-! ### Claim C10 -/

/-- C10: whenever `createTrack`, `updateTrack` or `deleteTrack` fails, the
pipeline emits its fallback value (`null` / `false`) instead of erroring,
the projection's list is exactly what it was before the operation (the list
edit lives on the success path only), and the failure is recorded in the
projection's error state. -/
theorem C10_failures_leave_list_and_report :
    (∀ (env : StorageEnv) (tid : String) (now : Nat)
        (formData : TrackFormData) (s : Store) (p : Projection),
      (createTrack env tid now formData s p).value = none →
      (createTrack env tid now formData s p).proj.tracks = p.tracks ∧
      (createTrack env tid now formData s p).proj.state = OpState.error ∧
      (createTrack env tid now formData s p).proj.error.isSome) ∧
    (∀ (env : StorageEnv) (id : String) (tsA tsC tsU : Nat)
        (updates : TrackUpdates) (s : Store) (p : Projection),
      (updateTrack env id tsA tsC tsU updates s p).value = none →
      (updateTrack env id tsA tsC tsU updates s p).proj.tracks = p.tracks ∧
      (updateTrack env id tsA tsC tsU updates s p).proj.state
        = OpState.error ∧
      (updateTrack env id tsA tsC tsU updates s p).proj.error.isSome) ∧
    (∀ (env : StorageEnv) (id : String) (s : Store) (p : Projection),
      (deleteTrack env id s p).value = false →
      (deleteTrack env id s p).proj.tracks = p.tracks ∧
      (deleteTrack env id s p).proj.state = OpState.error ∧
      (deleteTrack env id s p).proj.error.isSome) := by
  refine ⟨?_, ?_, ?_⟩
  · intro env tid now formData s p h
    cases ha : env.audioSaveOk ("audio-" ++ tid)
    · refine ⟨?_, ?_, ?_⟩ <;>
        simp [createTrack, saveAudioFile, ha, handleError]
    · cases hcov : formData.coverImage with
      | none =>
        cases ht : env.trackSaveOk tid
        · refine ⟨?_, ?_, ?_⟩ <;>
            simp [createTrack, saveAudioFile, saveTrack, ha, hcov, ht,
              handleError]
        · simp [createTrack, saveAudioFile, saveTrack, ha, hcov, ht] at h
      | some cov =>
        cases ht : env.trackSaveOk tid
        · cases hcs : env.coverSaveOk ("cover-" ++ tid) <;>
            refine ⟨?_, ?_, ?_⟩ <;>
            simp [createTrack, saveAudioFile, saveCoverImage, saveTrack, ha,
              hcov, hcs, ht, handleError]
        · cases hcs : env.coverSaveOk ("cover-" ++ tid) <;>
            simp [createTrack, saveAudioFile, saveCoverImage, saveTrack, ha,
              hcov, hcs, ht] at h
  · intro env id tsA tsC tsU updates s p h
    cases hg : getTrack s id with
    | none =>
      refine ⟨?_, ?_, ?_⟩ <;> simp [updateTrack, hg, handleError]
    | some ex =>
      rcases updateTrack_shape env id tsA tsC tsU updates s p ex hg with
        ⟨a, d, c, s', heq⟩ | ⟨s', heq⟩
      · rw [heq, finishUpdate_value] at h
        cases ht : env.trackSaveOk ex.id <;> rw [ht] at h <;> simp at h
        rw [heq]
        refine ⟨?_, ?_, ?_⟩ <;> rw [finishUpdate_proj, ht] <;>
          simp [handleError]
      · rw [heq]
        refine ⟨?_, ?_, ?_⟩ <;> simp [handleError]
  · intro env id s p h
    cases hg : getTrack s id with
    | none =>
      refine ⟨?_, ?_, ?_⟩ <;> simp [deleteTrack, hg, handleError]
    | some t =>
      simp [deleteTrack, hg] at h

/-- C10, witness: the theorem applied to a failing audio write in create,
an update of an absent id, and a delete of an absent id. -/
theorem C10_failures_witness :
    ((createTrack envAudioSaveFail "t1" 100 form1 emptyStore
        projT1).proj.tracks = projT1.tracks ∧
      (createTrack envAudioSaveFail "t1" 100 form1 emptyStore
        projT1).proj.state = OpState.error ∧
      (createTrack envAudioSaveFail "t1" 100 form1 emptyStore
        projT1).proj.error.isSome) ∧
    ((updateTrack envAllOk "t9" 200 201 202 updCoverOnly storeT1
        projT1).proj.tracks = projT1.tracks ∧
      (updateTrack envAllOk "t9" 200 201 202 updCoverOnly storeT1
        projT1).proj.state = OpState.error ∧
      (updateTrack envAllOk "t9" 200 201 202 updCoverOnly storeT1
        projT1).proj.error.isSome) ∧
    ((deleteTrack envAllOk "t2" storeT1 projT1).proj.tracks
        = projT1.tracks ∧
      (deleteTrack envAllOk "t2" storeT1 projT1).proj.state
        = OpState.error ∧
      (deleteTrack envAllOk "t2" storeT1 projT1).proj.error.isSome) := by
  obtain ⟨p1, p2, p3⟩ := C10_failures_leave_list_and_report
  exact ⟨p1 envAudioSaveFail "t1" 100 form1 emptyStore projT1 rfl,
    p2 envAllOk "t9" 200 201 202 updCoverOnly storeT1 projT1 rfl,
    p3 envAllOk "t2" storeT1 projT1 rfl⟩

end Mosiqa
